import Mathlib

/-!
Verification development for the SecurePOS repository.

The definitions below are a shallow embedding of the repository's
authorization / ledger core:

* `BCState` and its methods embed `BlockchainService`
  (backend/src/services/blockchain.ts): a mutable map from wallet address
  to role string plus a mutable map from `storeId:date` keys to sales
  records.  JavaScript `Map` objects are embedded as association lists
  whose insert replaces an existing key in place.
* `POSState` and its methods embed `SecurePOSModule` (the Lisk module):
  sales records, user-role records and the `adminAddresses` set.
* `authMiddleware`, `gate` and the route functions embed the Express
  middleware chain and the route handlers in backend/src/routes
  (admin.ts, sales.ts, audit.ts), including the admin-action and audit
  log appends the handlers perform.
* `sha256Hex` embeds `crypto.createHash('sha256').update(b).digest('hex')`
  as used by both the submit-sales and the verify route.

Timestamps (`Date.now()`) are passed in explicitly as `now : Nat`.
-/

/-- Association-list embedding of a JavaScript `Map` lookup (`Map.get`). -/
def alookup {α : Type} (l : List (String × α)) (k : String) : Option α :=
  match l with
  | [] => none
  | (k', v) :: rest => if k' = k then some v else alookup rest k

/-- Association-list embedding of `Map.set`: replace the entry in place if
the key is present, otherwise append a fresh entry. -/
def ainsert {α : Type} (l : List (String × α)) (k : String) (v : α) : List (String × α) :=
  match l with
  | [] => [(k, v)]
  | (k', v') :: rest => if k' = k then (k, v) :: rest else (k', v') :: ainsert rest k v

/-- Association-list embedding of `Map.delete`. -/
def aerase {α : Type} (l : List (String × α)) (k : String) : List (String × α) :=
  match l with
  | [] => []
  | (k', v') :: rest => if k' = k then rest else (k', v') :: aerase rest k

/-- Association-list embedding of `Map.has`. -/
def acontains {α : Type} (l : List (String × α)) (k : String) : Bool :=
  (alookup l k).isSome

/-- Embedding of `Set.add`. -/
def sadd (l : List String) (k : String) : List String :=
  if l.contains k then l else l ++ [k]

/-- Embedding of `Set.delete`. -/
def sdel (l : List String) (k : String) : List String :=
  l.filter (fun x => x ≠ k)

/-- A sales record, exactly the object stored by `submitSalesHash` in
both `BlockchainService` and `SecurePOSModule`. -/
structure SalesRecord where
  storeId : String
  date : String
  hash : String
  timestamp : Nat
  submittedBy : String
deriving Repr, DecidableEq

/-- The `BlockchainResponse` shape of blockchain.ts: `success`, `message`
and the optional extra fields (`data`, `hasRole`, `role`). -/
structure BlockchainResponse where
  success : Bool
  message : String
  data : Option SalesRecord
  dataList : Option (List SalesRecord)
  hasRoleField : Option Bool
  roleField : Option String
deriving Repr, DecidableEq

/-- A response carrying only `success` and `message`. -/
def bcMsg (s : Bool) (m : String) : BlockchainResponse :=
  ⟨s, m, none, none, none, none⟩

/-- The mutable state of `BlockchainService`: `mockUsers` (address → role
string) and `mockSalesRecords` (`storeId:date` → record). -/
structure BCState where
  mockUsers : List (String × String)
  mockSalesRecords : List (String × SalesRecord)
deriving Repr, DecidableEq

/-- The default admin address seeded into `mockUsers`. -/
def adminSeed : String := "lsk24cd35u4jdq8szo4pnsqe5dsxwrnazyqqqg5eu"

/-- The mock auditor address seeded into `mockUsers`. -/
def auditorSeed : String := "lsk2a8h3k9j4m5n6p7q8r9s0t1u2v3w4x5y6z7a8b"

/-- The mock cashier address seeded into `mockUsers`. -/
def cashierSeed : String := "lsk3b9i4k0j5m6n7p8q9r0s1t2u3v4w5x6y7z8a9c"

/-- The initial `BlockchainService` state (the map literal in blockchain.ts,
with no sales records). -/
def bcInit : BCState :=
  ⟨[(adminSeed, "admin"), (auditorSeed, "auditor"), (cashierSeed, "cashier")], []⟩

/-- `BlockchainService.submitSalesHash`: reject unless the sender's role is
`cashier`; reject if `storeId:date` already has a record; otherwise store
the new record. -/
def BCState.submitSalesHash (st : BCState) (storeId date hash senderAddress : String)
    (now : Nat) : BlockchainResponse × BCState :=
  if alookup st.mockUsers senderAddress ≠ some "cashier" then
    (bcMsg false "Unauthorized: Cashier role required", st)
  else if acontains st.mockSalesRecords (storeId ++ ":" ++ date) then
    (bcMsg false "Sales record already exists for this date", st)
  else
    (bcMsg true "Sales hash submitted successfully",
      ⟨st.mockUsers,
       ainsert st.mockSalesRecords (storeId ++ ":" ++ date)
         ⟨storeId, date, hash, now, senderAddress⟩⟩)

/-- `BlockchainService.getSalesHash`: pure lookup of `storeId:date`. -/
def BCState.getSalesHash (st : BCState) (storeId date : String) : BlockchainResponse :=
  match alookup st.mockSalesRecords (storeId ++ ":" ++ date) with
  | none => bcMsg false "No sales record found"
  | some record => ⟨true, "Record found", some record, none, none, none⟩

/-- `BlockchainService.addUser`: reject unless the sender's role is `admin`;
otherwise `mockUsers.set(userAddress, role)` with no validation of `role`. -/
def BCState.addUser (st : BCState) (userAddress role senderAddress : String) :
    BlockchainResponse × BCState :=
  if alookup st.mockUsers senderAddress ≠ some "admin" then
    (bcMsg false "Unauthorized: Admin role required", st)
  else
    (bcMsg true ("User added to " ++ role ++ " role successfully"),
      ⟨ainsert st.mockUsers userAddress role, st.mockSalesRecords⟩)

/-- `BlockchainService.removeUser`: reject unless the sender's role is
`admin`; delete the target if present, else 'User not found'.  There is no
last-admin check in this implementation. -/
def BCState.removeUser (st : BCState) (userAddress senderAddress : String) :
    BlockchainResponse × BCState :=
  if alookup st.mockUsers senderAddress ≠ some "admin" then
    (bcMsg false "Unauthorized: Admin role required", st)
  else if acontains st.mockUsers userAddress then
    (bcMsg true "User removed successfully",
      ⟨aerase st.mockUsers userAddress, st.mockSalesRecords⟩)
  else
    (bcMsg false "User not found", st)

/-- `BlockchainService.hasRole`: public read; reports whether the stored
role string strictly equals the queried role. -/
def BCState.hasRole (st : BCState) (userAddress role : String) : BlockchainResponse :=
  ⟨true, "Role check completed", none, none,
   some (alookup st.mockUsers userAddress == some role),
   alookup st.mockUsers userAddress⟩

/-- `BlockchainService.getAllSalesRecords`: admin only, returns all stored
records. -/
def BCState.getAllSalesRecords (st : BCState) (senderAddress : String) : BlockchainResponse :=
  if alookup st.mockUsers senderAddress ≠ some "admin" then
    bcMsg false "Unauthorized: Admin role required"
  else
    ⟨true, "Records retrieved", none, some (st.mockSalesRecords.map (fun p => p.2)), none, none⟩

/-- A `UserRole` record of `SecurePOSModule`.  The `role` field is kept as
a plain string, as the TypeScript union type is erased at runtime and
`addUser` receives an arbitrary string. -/
structure UserRole where
  address : String
  role : String
  addedBy : String
  timestamp : Nat
deriving Repr, DecidableEq

/-- The mutable state of `SecurePOSModule`: `salesRecords`
(`storeId:date` → record), `userRoles` (address → `UserRole`) and the
`adminAddresses` set. -/
structure POSState where
  salesRecords : List (String × SalesRecord)
  userRoles : List (String × UserRole)
  adminAddresses : List String
deriving Repr, DecidableEq

/-- The `{ success, message }` result shape of the module endpoints. -/
structure ModResp where
  success : Bool
  message : String
deriving Repr, DecidableEq

/-- `SecurePOSModule.init`: the deployer is seeded as admin, both in
`userRoles` and in `adminAddresses`. -/
def POSState.init (deployer : String) (now : Nat) : POSState :=
  ⟨[], [(deployer, ⟨deployer, "admin", deployer, now⟩)], [deployer]⟩

/-- `SecurePOSModule.hasRoleInternal`: the stored `UserRole.role` must
strictly equal the queried role (`userRole?.role === role`). -/
def POSState.hasRoleInternal (st : POSState) (address role : String) : Bool :=
  match alookup st.userRoles address with
  | some ur => ur.role == role
  | none => false

/-- `SecurePOSModule.submitSalesHash`: cashier check, falsy-parameter
check, duplicate-key check, then store the record. -/
def POSState.submitSalesHash (st : POSState) (storeId date hash senderAddress : String)
    (now : Nat) : ModResp × POSState :=
  if ¬ st.hasRoleInternal senderAddress "cashier" then
    (⟨false, "Unauthorized: Cashier role required"⟩, st)
  else if storeId = "" ∨ date = "" ∨ hash = "" then
    (⟨false, "Missing required parameters"⟩, st)
  else if acontains st.salesRecords (storeId ++ ":" ++ date) then
    (⟨false, "Sales record for this store and date already exists"⟩, st)
  else
    (⟨true, "Sales hash submitted successfully"⟩,
      ⟨ainsert st.salesRecords (storeId ++ ":" ++ date)
         ⟨storeId, date, hash, now, senderAddress⟩,
       st.userRoles, st.adminAddresses⟩)

/-- `SecurePOSModule.addUser`: admin check, closed-set role validation,
then `userRoles.set` (full replacement) and, when the granted role is
`admin`, `adminAddresses.add`.  A non-admin grant to a current admin does
NOT remove the target from `adminAddresses`. -/
def POSState.addUser (st : POSState) (userAddress role senderAddress : String)
    (now : Nat) : ModResp × POSState :=
  if ¬ st.hasRoleInternal senderAddress "admin" then
    (⟨false, "Unauthorized: Admin role required"⟩, st)
  else if ¬ (["admin", "auditor", "cashier"].contains role) then
    (⟨false, "Invalid role specified"⟩, st)
  else
    (⟨true, "User added to " ++ role ++ " role successfully"⟩,
      ⟨st.salesRecords,
       ainsert st.userRoles userAddress ⟨userAddress, role, senderAddress, now⟩,
       if role = "admin" then sadd st.adminAddresses userAddress else st.adminAddresses⟩)

/-- `SecurePOSModule.removeUser`: admin check; the last-admin guard fires
only when the target is the sender AND `adminAddresses.size === 1`; then
the target's `userRoles` entry is deleted (and its `adminAddresses`
membership when its current role is `admin`). -/
def POSState.removeUser (st : POSState) (userAddress senderAddress : String) :
    ModResp × POSState :=
  if ¬ st.hasRoleInternal senderAddress "admin" then
    (⟨false, "Unauthorized: Admin role required"⟩, st)
  else if userAddress = senderAddress ∧ st.adminAddresses.length = 1 then
    (⟨false, "Cannot remove the last admin"⟩, st)
  else
    match alookup st.userRoles userAddress with
    | some ur =>
        (⟨true, "User removed successfully"⟩,
          ⟨st.salesRecords,
           aerase st.userRoles userAddress,
           if ur.role = "admin" then sdel st.adminAddresses userAddress
           else st.adminAddresses⟩)
    | none => (⟨false, "User not found"⟩, st)

/-- The addresses whose current `userRoles` entry carries the `admin`
role (the module's actual admins, as opposed to `adminAddresses`). -/
def POSState.actualAdmins (st : POSState) : List String :=
  (st.userRoles.filter (fun p => p.2.role == "admin")).map (fun p => p.1)

/-- The addresses whose `mockUsers` role string is `admin` in the
`BlockchainService` state. -/
def BCState.admins (st : BCState) : List String :=
  (st.mockUsers.filter (fun p => p.2 == "admin")).map (fun p => p.1)

/-- Modulus for 32-bit words. -/
def M32 : Nat := 4294967296

/-- Right rotation of a 32-bit word. -/
def rotr32 (n w : Nat) : Nat := ((w >>> n) ||| (w <<< (32 - n))) % M32

/-- SHA-256 big sigma-0. -/
def bsig0 (x : Nat) : Nat := rotr32 2 x ^^^ rotr32 13 x ^^^ rotr32 22 x

/-- SHA-256 big sigma-1. -/
def bsig1 (x : Nat) : Nat := rotr32 6 x ^^^ rotr32 11 x ^^^ rotr32 25 x

/-- SHA-256 small sigma-0. -/
def ssig0 (x : Nat) : Nat := rotr32 7 x ^^^ rotr32 18 x ^^^ (x >>> 3)

/-- SHA-256 small sigma-1. -/
def ssig1 (x : Nat) : Nat := rotr32 17 x ^^^ rotr32 19 x ^^^ (x >>> 10)

/-- SHA-256 choose function (complement taken within 32 bits). -/
def chFun (x y z : Nat) : Nat := (x &&& y) ^^^ ((x ^^^ 4294967295) &&& z)

/-- SHA-256 majority function. -/
def majFun (x y z : Nat) : Nat := (x &&& y) ^^^ (x &&& z) ^^^ (y &&& z)

/-- The 64 SHA-256 round constants (decimal). -/
def K256 : List Nat :=
  [1116352408, 1899447441, 3049323471, 3921009573, 961987163, 1508970993,
   2453635748, 2870763221, 3624381080, 310598401, 607225278, 1426881987,
   1925078388, 2162078206, 2614888103, 3248222580, 3835390401, 4022224774,
   264347078, 604807628, 770255983, 1249150122, 1555081692, 1996064986,
   2554220882, 2821834349, 2952996808, 3210313671, 3336571891, 3584528711,
   113926993, 338241895, 666307205, 773529912, 1294757372, 1396182291,
   1695183700, 1986661051, 2177026350, 2456956037, 2730485921, 2820302411,
   3259730800, 3345764771, 3516065817, 3600352804, 4094571909, 275423344,
   430227734, 506948616, 659060556, 883997877, 958139571, 1322822218,
   1537002063, 1747873779, 1955562222, 2024104815, 2227730452, 2361852424,
   2428436474, 2756734187, 3204031479, 3329325298]

/-- Pad a byte-string message per SHA-256 (append 0x80, zeros, and the
64-bit big-endian bit length). -/
def padMessage (msg : List Nat) : List Nat :=
  msg ++ [0x80] ++ List.replicate ((64 - ((msg.length + 9) % 64)) % 64) 0 ++
    [(msg.length * 8) >>> 56 % 256, (msg.length * 8) >>> 48 % 256,
     (msg.length * 8) >>> 40 % 256, (msg.length * 8) >>> 32 % 256,
     (msg.length * 8) >>> 24 % 256, (msg.length * 8) >>> 16 % 256,
     (msg.length * 8) >>> 8 % 256, (msg.length * 8) % 256]

/-- Group bytes into big-endian 32-bit words. -/
def toWords32 : List Nat → List Nat
  | b0 :: b1 :: b2 :: b3 :: rest =>
      ((b0 <<< 24) ||| (b1 <<< 16) ||| (b2 <<< 8) ||| b3) :: toWords32 rest
  | _ => []

/-- Group a word list into 16-word chunks. -/
def chunk16 : List Nat → List (List Nat)
  | w0 :: w1 :: w2 :: w3 :: w4 :: w5 :: w6 :: w7 ::
    w8 :: w9 :: w10 :: w11 :: w12 :: w13 :: w14 :: w15 :: rest =>
      [w0, w1, w2, w3, w4, w5, w6, w7, w8, w9, w10, w11, w12, w13, w14, w15] :: chunk16 rest
  | _ => []

/-- Extend a 16-word block to the 64-word message schedule. -/
def extendSchedule (ws : List Nat) : List Nat :=
  (List.range 48).foldl
    (fun acc _ =>
      acc ++ [(acc.getD (acc.length - 16) 0 + ssig0 (acc.getD (acc.length - 15) 0) +
               acc.getD (acc.length - 7) 0 + ssig1 (acc.getD (acc.length - 2) 0)) % M32])
    ws

/-- The eight 32-bit working variables of the SHA-256 compression. -/
structure Hash8 where
  a : Nat
  b : Nat
  c : Nat
  d : Nat
  e : Nat
  f : Nat
  g : Nat
  h : Nat
deriving Repr, DecidableEq

/-- One SHA-256 round. -/
def round256 (st : Hash8) (kw : Nat × Nat) : Hash8 :=
  let t1 := (st.h + bsig1 st.e + chFun st.e st.f st.g + kw.1 + kw.2) % M32
  let t2 := (bsig0 st.a + majFun st.a st.b st.c) % M32
  ⟨(t1 + t2) % M32, st.a, st.b, st.c, (st.d + t1) % M32, st.e, st.f, st.g⟩

/-- Compress one 16-word chunk into the running hash value. -/
def compressChunk (h0 : Hash8) (ws16 : List Nat) : Hash8 :=
  let s := (K256.zip (extendSchedule ws16)).foldl round256 h0
  ⟨(h0.a + s.a) % M32, (h0.b + s.b) % M32, (h0.c + s.c) % M32, (h0.d + s.d) % M32,
   (h0.e + s.e) % M32, (h0.f + s.f) % M32, (h0.g + s.g) % M32, (h0.h + s.h) % M32⟩

/-- SHA-256 of a byte-string message, as the eight final hash words. -/
def sha256State (msg : List Nat) : Hash8 :=
  (chunk16 (toWords32 (padMessage msg))).foldl compressChunk
    ⟨1779033703, 3144134277, 1013904242, 2773480762,
     1359893119, 2600822924, 528734635, 1541459225⟩

/-- The eight final hash words as a list. -/
def sha256Words (msg : List Nat) : List Nat :=
  let s := sha256State msg
  [s.a, s.b, s.c, s.d, s.e, s.f, s.g, s.h]

/-- Lowercase hexadecimal digit, as produced by node's `digest('hex')`. -/
def hexChar (n : Nat) : Char :=
  if n < 10 then Char.ofNat (48 + n) else Char.ofNat (87 + n)

/-- The eight hex digits of a 32-bit word, most significant first. -/
def wordHex (w : Nat) : List Char :=
  [hexChar ((w >>> 28) % 16), hexChar ((w >>> 24) % 16),
   hexChar ((w >>> 20) % 16), hexChar ((w >>> 16) % 16),
   hexChar ((w >>> 12) % 16), hexChar ((w >>> 8) % 16),
   hexChar ((w >>> 4) % 16), hexChar (w % 16)]

/-- `crypto.createHash('sha256').update(bytes).digest('hex')`: the
64-character lowercase hex digest used by both the submit and the verify
route. -/
def sha256Hex (msg : List Nat) : String :=
  String.mk ((sha256Words msg).flatMap wordHex)

/-- An uploaded file as seen by a route handler (`req.file`). -/
structure UploadedFile where
  originalname : String
  bytes : List Nat
deriving Repr, DecidableEq

/-- Outcome of the middleware chain: either an HTTP rejection or a request
annotated with `userAddress` and `userRole`. -/
inductive AuthOutcome where
  | reject (status : Nat) (message : String)
  | proceed (userAddress userRole : String)
deriving Repr, DecidableEq

/-- `walletAddress.startsWith('lsk')`, written as a direct pattern match
on the character list so that it evaluates inside the kernel. -/
def startsWithLsk (w : String) : Bool :=
  match w.data with
  | 'l' :: 's' :: 'k' :: _ => true
  | _ => false

/-- `authMiddleware` (backend/src/middleware/auth.ts): requires the
`x-wallet-address` header, validates the `lsk` + length-41 shape, then
tries the roles `admin`, `auditor`, `cashier` in order via
`blockchainService.hasRole`; rejects with 403 when none holds. -/
def authMiddleware (st : BCState) (walletHeader : Option String) : AuthOutcome :=
  match walletHeader with
  | none => .reject 401 "Wallet address required"
  | some w =>
    if ¬ (startsWithLsk w = true ∧ w.length = 41) then
      .reject 401 "Invalid wallet address format"
    else if (st.hasRole w "admin").success && ((st.hasRole w "admin").hasRoleField.getD false) then
      .proceed w "admin"
    else if (st.hasRole w "auditor").success && ((st.hasRole w "auditor").hasRoleField.getD false) then
      .proceed w "auditor"
    else if (st.hasRole w "cashier").success && ((st.hasRole w "cashier").hasRoleField.getD false) then
      .proceed w "cashier"
    else
      .reject 403 "Unauthorized: No valid role assigned"

/-- `authMiddleware` followed by `requireRole(requiredRole)`: the guard
succeeds only when `req.userRole` strictly equals the required role. -/
def gate (st : BCState) (walletHeader : Option String) (requiredRole : String) : AuthOutcome :=
  match authMiddleware st walletHeader with
  | .reject s m => .reject s m
  | .proceed a r =>
      if r ≠ requiredRole then
        .reject 403 ("Unauthorized: " ++ requiredRole ++ " role required")
      else .proceed a r

/-- An admin-action log file, as written by the add-user / remove-user
routes on success. -/
structure AdminLogEntry where
  action : String
  adminAddress : String
  targetAddress : String
  roleField : Option String
  timestamp : Nat
deriving Repr, DecidableEq

/-- An audit log file, as written by the verify route. -/
structure AuditLogEntry where
  auditedBy : String
  storeId : String
  date : String
  uploadedHash : String
  storedHash : String
  hashMatch : Bool
  filename : String
  fileSize : Nat
  timestamp : Nat
  originalSubmission : SalesRecord
deriving Repr, DecidableEq

/-- The backend's observable state: the `BlockchainService` singleton plus
the append-only admin-action and audit log directories. -/
structure ServerState where
  bc : BCState
  adminLogs : List AdminLogEntry
  auditLogs : List AuditLogEntry
deriving Repr, DecidableEq

/-- An HTTP response, reduced to status code plus the `{success, message}`
body. -/
structure HttpResp where
  status : Nat
  success : Bool
  message : String
deriving Repr, DecidableEq

/-- POST /api/admin/add-user: `requireRole('admin')`, field presence,
closed-set role validation, address-format validation, then
`blockchainService.addUser`; an admin log entry is written only when the
service call succeeds. -/
def addUserRoute (ss : ServerState) (walletHeader : Option String)
    (userAddress role : String) (now : Nat) : HttpResp × ServerState :=
  match gate ss.bc walletHeader "admin" with
  | .reject s m => (⟨s, false, m⟩, ss)
  | .proceed reqAddr _ =>
    if userAddress = "" ∨ role = "" then
      (⟨400, false, "User address and role are required"⟩, ss)
    else if ¬ (["admin", "auditor", "cashier"].contains role) then
      (⟨400, false, "Invalid role. Must be admin, auditor, or cashier"⟩, ss)
    else if ¬ (startsWithLsk userAddress = true ∧ userAddress.length = 41) then
      (⟨400, false, "Invalid Lisk address format"⟩, ss)
    else
      let result := (ss.bc.addUser userAddress role reqAddr).1
      (⟨200, result.success, result.message⟩,
        ⟨(ss.bc.addUser userAddress role reqAddr).2,
         if result.success then
           ss.adminLogs ++ [⟨"add_user", reqAddr, userAddress, some role, now⟩]
         else ss.adminLogs,
         ss.auditLogs⟩)

/-- DELETE /api/admin/remove-user: `requireRole('admin')`, field presence,
then `blockchainService.removeUser`; an admin log entry is written only
when the service call succeeds. -/
def removeUserRoute (ss : ServerState) (walletHeader : Option String)
    (userAddress : String) (now : Nat) : HttpResp × ServerState :=
  match gate ss.bc walletHeader "admin" with
  | .reject s m => (⟨s, false, m⟩, ss)
  | .proceed reqAddr _ =>
    if userAddress = "" then
      (⟨400, false, "User address is required"⟩, ss)
    else
      let result := (ss.bc.removeUser userAddress reqAddr).1
      (⟨200, result.success, result.message⟩,
        ⟨(ss.bc.removeUser userAddress reqAddr).2,
         if result.success then
           ss.adminLogs ++ [⟨"remove_user", reqAddr, userAddress, none, now⟩]
         else ss.adminLogs,
         ss.auditLogs⟩)

/-- POST /api/submit-sales: `requireRole('cashier')`, file and field
presence, SHA-256 of the uploaded bytes, then
`blockchainService.submitSalesHash`; 400 with the service message on
failure. -/
def submitSalesRoute (ss : ServerState) (walletHeader : Option String)
    (file : Option UploadedFile) (storeId date : String) (now : Nat) :
    HttpResp × ServerState :=
  match gate ss.bc walletHeader "cashier" with
  | .reject s m => (⟨s, false, m⟩, ss)
  | .proceed reqAddr _ =>
    match file with
    | none => (⟨400, false, "No file uploaded"⟩, ss)
    | some f =>
      if storeId = "" ∨ date = "" then
        (⟨400, false, "Store ID and date are required"⟩, ss)
      else
        let rs := ss.bc.submitSalesHash storeId date (sha256Hex f.bytes) reqAddr now
        if ¬ rs.1.success then (⟨400, false, rs.1.message⟩, ss)
        else (⟨200, true, "Sales file submitted successfully"⟩,
          ⟨rs.2, ss.adminLogs, ss.auditLogs⟩)

/-- POST /api/verify: `requireRole('auditor')`, file and field presence,
SHA-256 of the uploaded bytes, `blockchainService.getSalesHash` (404 when
absent), then the exact-equality hash comparison and the audit log
append; the response is successful whether or not the hashes match. -/
def verifyRoute (ss : ServerState) (walletHeader : Option String)
    (file : Option UploadedFile) (storeId date : String) (now : Nat) :
    HttpResp × ServerState :=
  match gate ss.bc walletHeader "auditor" with
  | .reject s m => (⟨s, false, m⟩, ss)
  | .proceed reqAddr _ =>
    match file with
    | none => (⟨400, false, "No file uploaded for verification"⟩, ss)
    | some f =>
      if storeId = "" ∨ date = "" then
        (⟨400, false, "Store ID and date are required"⟩, ss)
      else
        let blockchainResult := ss.bc.getSalesHash storeId date
        if ¬ blockchainResult.success then
          (⟨404, false, "No sales record found for the specified store and date"⟩, ss)
        else
          match blockchainResult.data with
          | none => (⟨500, false, "Failed to verify file"⟩, ss)
          | some storedRecord =>
            (⟨200, true,
               if sha256Hex f.bytes == storedRecord.hash then "File verification successful"
               else "File verification failed"⟩,
              ⟨ss.bc, ss.adminLogs,
               ss.auditLogs ++
                 [⟨reqAddr, storeId, date, sha256Hex f.bytes, storedRecord.hash,
                   sha256Hex f.bytes == storedRecord.hash, f.originalname,
                   f.bytes.length, now, storedRecord⟩]⟩)

/-- The module state right after genesis: the deployer is the only
identity and the only admin. -/
def posInit : POSState := POSState.init adminSeed 0

/-- The deployer grants `admin` to a second address. -/
def posDemo1 : POSState := (posInit.addUser auditorSeed "admin" adminSeed 1).2

/-- The deployer then demotes that second address to `cashier`.  Exactly
one identity (the deployer) now holds the admin role, but
`adminAddresses` still contains both addresses. -/
def posDemo2 : POSState := (posDemo1.addUser auditorSeed "cashier" adminSeed 2).2

/-- The backend's initial observable state: seeded users, no sales
records, empty log directories. -/
def serverInit : ServerState := ⟨bcInit, [], []⟩

/-- A sample uploaded file (bytes of `abc`). -/
def fileB1 : UploadedFile := ⟨"sales.csv", [97, 98, 99]⟩

/-- A second, different sample file (bytes of `abd`). -/
def fileB2 : UploadedFile := ⟨"sales2.csv", [97, 98, 100]⟩

/-- The server state after the seeded cashier submits `fileB1` for store
`S1` on `2024-01-01`. -/
def serverAfterSubmit : ServerState :=
  (submitSalesRoute serverInit (some cashierSeed) (some fileB1) "S1" "2024-01-01" 10).2

theorem alookup_ainsert_self {α : Type} (l : List (String × α)) (k : String) (v : α) :
    alookup (ainsert l k v) k = some v := by
  induction l with
  | nil => simp [ainsert, alookup]
  | cons p rest ih =>
    by_cases h : p.1 = k
    · simp [ainsert, alookup, h]
    · simp [ainsert, alookup, h, ih]

theorem acontains_ainsert_self {α : Type} (l : List (String × α)) (k : String) (v : α) :
    acontains (ainsert l k v) k = true := by
  simp [acontains, alookup_ainsert_self]

/-- Claim C1: the claim asserts that when exactly one identity holds the
admin role, a self-revoke by that last admin fails with the last-admin
error and leaves the store unchanged, and that no grant/revoke sequence
ever removes the last admin.  This theorem evaluates the code at failing
inputs: in `SecurePOSModule`, after the deployer grants `admin` to a
second address and then demotes it to `cashier`, the deployer is the only
identity with the admin role, yet its self-revoke succeeds and leaves
zero admins; in `BlockchainService`, already in the seeded initial state
the only admin's self-revoke succeeds and leaves zero admins (there is no
last-admin check at all). -/
theorem lastAdmin_guard_violated_eval :
    posDemo2.actualAdmins = [adminSeed]
    ∧ (posDemo2.removeUser adminSeed adminSeed).1 = ⟨true, "User removed successfully"⟩
    ∧ (posDemo2.removeUser adminSeed adminSeed).2.actualAdmins = []
    ∧ bcInit.admins = [adminSeed]
    ∧ (bcInit.removeUser adminSeed adminSeed).1 = bcMsg true "User removed successfully"
    ∧ (bcInit.removeUser adminSeed adminSeed).2.admins = [] := by
  decide

/-- Claim C10: in `SecurePOSModule`, granting a non-admin role to a
current admin replaces the `userRoles` entry but leaves the address in
`adminAddresses`; hence `adminAddresses.size` (the quantity the
last-admin guard in `removeUser` tests) counts demoted admins, and
`adminAddresses` differs from the set of addresses whose current role is
admin. -/
theorem adminAddresses_stale_after_demotion :
    (posDemo1.addUser auditorSeed "cashier" adminSeed 2).1.success = true
    ∧ (alookup posDemo2.userRoles auditorSeed).map UserRole.role = some "cashier"
    ∧ posDemo2.adminAddresses = [adminSeed, auditorSeed]
    ∧ posDemo2.adminAddresses.length = 2
    ∧ posDemo2.actualAdmins = [adminSeed]
    ∧ (posDemo2.adminAddresses == posDemo2.actualAdmins) = false := by
  decide

/-- Claim C2: once a submit has succeeded for `(storeId, date)`, every
later submit for the same key fails and leaves the state unchanged;
when the later caller passes the cashier check (and, in the module, the
field-presence check) the failure is exactly the duplicate-key error,
whatever the new digest; and the record stored by the first submit is
still the one on file.  Stated for both `BlockchainService` and
`SecurePOSModule`. -/
theorem submit_first_write_wins :
    (∀ (st : BCState) (s d hsh a h' a' : String) (now now' : Nat),
       (st.submitSalesHash s d hsh a now).1.success = true →
       ((st.submitSalesHash s d hsh a now).2.submitSalesHash s d h' a' now').1.success = false
       ∧ ((st.submitSalesHash s d hsh a now).2.submitSalesHash s d h' a' now').2
           = (st.submitSalesHash s d hsh a now).2
       ∧ (alookup st.mockUsers a' = some "cashier" →
           ((st.submitSalesHash s d hsh a now).2.submitSalesHash s d h' a' now').1
             = bcMsg false "Sales record already exists for this date")
       ∧ alookup (st.submitSalesHash s d hsh a now).2.mockSalesRecords (s ++ ":" ++ d)
           = some ⟨s, d, hsh, now, a⟩)
    ∧ (∀ (st : POSState) (s d hsh a h' a' : String) (now now' : Nat),
       (st.submitSalesHash s d hsh a now).1.success = true →
       ((st.submitSalesHash s d hsh a now).2.submitSalesHash s d h' a' now').1.success = false
       ∧ ((st.submitSalesHash s d hsh a now).2.submitSalesHash s d h' a' now').2
           = (st.submitSalesHash s d hsh a now).2
       ∧ (st.hasRoleInternal a' "cashier" = true → h' ≠ "" →
           ((st.submitSalesHash s d hsh a now).2.submitSalesHash s d h' a' now').1
             = ⟨false, "Sales record for this store and date already exists"⟩)
       ∧ alookup (st.submitSalesHash s d hsh a now).2.salesRecords (s ++ ":" ++ d)
           = some ⟨s, d, hsh, now, a⟩) := by
  constructor
  · intro st s d hsh a h' a' now now' hsucc
    by_cases hc : alookup st.mockUsers a = some "cashier"
    · by_cases hdup : acontains st.mockSalesRecords (s ++ ":" ++ d) = true
      · simp [BCState.submitSalesHash, hc, hdup, bcMsg] at hsucc
      · have hst₁ : (st.submitSalesHash s d hsh a now).2 =
            ⟨st.mockUsers, ainsert st.mockSalesRecords (s ++ ":" ++ d) ⟨s, d, hsh, now, a⟩⟩ := by
          simp [BCState.submitSalesHash, hc, hdup]
        rw [hst₁]
        by_cases hc' : alookup st.mockUsers a' = some "cashier"
        · simp [BCState.submitSalesHash, hc', acontains_ainsert_self,
            alookup_ainsert_self, bcMsg]
        · simp [BCState.submitSalesHash, hc', alookup_ainsert_self, bcMsg]
    · simp [BCState.submitSalesHash, hc, bcMsg] at hsucc
  · intro st s d hsh a h' a' now now' hsucc
    by_cases hc : st.hasRoleInternal a "cashier" = true
    · by_cases hmiss : s = "" ∨ d = "" ∨ hsh = ""
      · simp [POSState.submitSalesHash, hc, hmiss] at hsucc
      · by_cases hdup : acontains st.salesRecords (s ++ ":" ++ d) = true
        · simp [POSState.submitSalesHash, hc, hmiss, hdup] at hsucc
        · have hst₁ : (st.submitSalesHash s d hsh a now).2 =
              ⟨ainsert st.salesRecords (s ++ ":" ++ d) ⟨s, d, hsh, now, a⟩,
               st.userRoles, st.adminAddresses⟩ := by
            simp [POSState.submitSalesHash, hc, hmiss, hdup]
          rw [hst₁]
          push_neg at hmiss
          rcases halook : alookup st.userRoles a' with _ | ur
          · simp [POSState.submitSalesHash, POSState.hasRoleInternal, halook,
              alookup_ainsert_self]
          · by_cases hr : ur.role = "cashier"
            · by_cases hh : h' = ""
              · simp [POSState.submitSalesHash, POSState.hasRoleInternal, halook, hr,
                  hmiss.1, hmiss.2.1, hh, alookup_ainsert_self]
              · simp [POSState.submitSalesHash, POSState.hasRoleInternal, halook, hr,
                  hmiss.1, hmiss.2.1, hh, acontains_ainsert_self, alookup_ainsert_self]
            · simp [POSState.submitSalesHash, POSState.hasRoleInternal, halook, hr,
                alookup_ainsert_self]
    · simp [POSState.submitSalesHash, hc] at hsucc

/-- Witness for claim C2: a concrete second submit for the key already
taken in the seeded state fails with the duplicate-key message. -/
theorem submit_first_write_wins_witness :
    ((bcInit.submitSalesHash "S1" "2024-01-01" "h1" cashierSeed 5).2.submitSalesHash
        "S1" "2024-01-01" "h2" cashierSeed 6).1
      = bcMsg false "Sales record already exists for this date" :=
  (submit_first_write_wins.1 bcInit "S1" "2024-01-01" "h1" cashierSeed "h2" cashierSeed 5 6
    (by decide)).2.2.1 (by decide)

/-- Claim C3: in `SecurePOSModule.addUser`, the grant succeeds exactly
when the actor currently holds the admin role and the role is in the
closed set; a non-admin actor is rejected with the admin-required error; an
admin actor granting a role outside the set is rejected with the
invalid-role error; and on success the target's identity record is fully
replaced, so its stored role equals the granted role.  In the HTTP layer,
the add-user route rejects a role outside the closed set with the 400
invalid-role response before touching the service. -/
theorem addUser_grant_spec :
    (∀ (st : POSState) (target role sender : String) (now : Nat),
       ((st.addUser target role sender now).1.success = true ↔
         (st.hasRoleInternal sender "admin" = true ∧
          (["admin", "auditor", "cashier"].contains role) = true))
       ∧ (st.hasRoleInternal sender "admin" = false →
           st.addUser target role sender now
             = (⟨false, "Unauthorized: Admin role required"⟩, st))
       ∧ (st.hasRoleInternal sender "admin" = true →
           (["admin", "auditor", "cashier"].contains role) = false →
           st.addUser target role sender now = (⟨false, "Invalid role specified"⟩, st))
       ∧ ((st.addUser target role sender now).1.success = true →
           alookup (st.addUser target role sender now).2.userRoles target
             = some ⟨target, role, sender, now⟩))
    ∧ (∀ (ss : ServerState) (w target role : String) (now : Nat) (a r : String),
        gate ss.bc (some w) "admin" = .proceed a r →
        target ≠ "" → role ≠ "" →
        (["admin", "auditor", "cashier"].contains role) = false →
        addUserRoute ss (some w) target role now
          = (⟨400, false, "Invalid role. Must be admin, auditor, or cashier"⟩, ss)) := by
  constructor
  · intro st target role sender now
    by_cases hadm : st.hasRoleInternal sender "admin" = true
    · by_cases hrole : (["admin", "auditor", "cashier"].contains role) = true
      · have hrole' : role = "admin" ∨ role = "auditor" ∨ role = "cashier" := by
          simpa using hrole
        rcases hrole' with rfl | rfl | rfl <;>
          simp [POSState.addUser, hadm, alookup_ainsert_self]
      · have hrole' : ¬ (role = "admin" ∨ role = "auditor" ∨ role = "cashier") := by
          simpa using hrole
        push_neg at hrole'
        simp [POSState.addUser, hadm, hrole'.1, hrole'.2.1, hrole'.2.2]
    · simp [POSState.addUser, hadm]
  · intro ss w target role now a r hgate ht hr hrole
    have hrole' : ¬ (role = "admin" ∨ role = "auditor" ∨ role = "cashier") := by
      simpa using hrole
    push_neg at hrole'
    simp [addUserRoute, hgate, ht, hr, hrole'.1, hrole'.2.1, hrole'.2.2]

/-- Witness for claim C3: the deployer grants `cashier` to a fresh
address and its stored record is exactly the granted one; granting the
out-of-set role `manager` through the route is rejected with 400. -/
theorem addUser_grant_spec_witness :
    alookup ((posInit.addUser cashierSeed "cashier" adminSeed 3).2).userRoles cashierSeed
        = some ⟨cashierSeed, "cashier", adminSeed, 3⟩
    ∧ addUserRoute serverInit (some adminSeed) cashierSeed "manager" 4
        = (⟨400, false, "Invalid role. Must be admin, auditor, or cashier"⟩, serverInit) :=
  ⟨(addUser_grant_spec.1 posInit cashierSeed "cashier" adminSeed 3).2.2.2 (by decide),
   addUser_grant_spec.2 serverInit adminSeed cashierSeed "manager" 4 adminSeed "admin"
     (by decide) (by decide) (by decide) (by decide)⟩

/-- Claim C4: the authorization guard is an exact role match with no
hierarchy: a request annotated with role `r` passes the guard for
`requiredRole` exactly when `r = requiredRole`, and otherwise is rejected
with the role-required error; in particular a sender whose stored role is
`admin` is rejected by the cashier-only `submitSalesHash` with the state
unchanged. -/
theorem authorization_exact_match :
    (∀ (st : BCState) (w required a r : String),
       authMiddleware st (some w) = .proceed a r →
       ((gate st (some w) required = .proceed a r) ↔ r = required))
    ∧ (∀ (st : BCState) (w required a r : String),
       authMiddleware st (some w) = .proceed a r → r ≠ required →
       gate st (some w) required
         = .reject 403 ("Unauthorized: " ++ required ++ " role required"))
    ∧ (∀ (st : BCState) (s d hsh sender : String) (now : Nat),
       alookup st.mockUsers sender = some "admin" →
       st.submitSalesHash s d hsh sender now
         = (bcMsg false "Unauthorized: Cashier role required", st)) := by
  refine ⟨?_, ?_, ?_⟩
  · intro st w required a r hmid
    by_cases hreq : r = required
    · simp [gate, hmid, hreq]
    · simp [gate, hmid, hreq]
  · intro st w required a r hmid hne
    simp [gate, hmid, hne]
  · intro st s d hsh sender now hadm
    simp [BCState.submitSalesHash, hadm, bcMsg]

/-- Witness for claim C4: the seeded admin is rejected by a cashier-gated
route and by the cashier-only submit. -/
theorem authorization_exact_match_witness :
    gate bcInit (some adminSeed) "cashier"
        = .reject 403 ("Unauthorized: " ++ "cashier" ++ " role required")
    ∧ bcInit.submitSalesHash "S1" "2024-01-01" "h1" adminSeed 5
        = (bcMsg false "Unauthorized: Cashier role required", bcInit) :=
  ⟨authorization_exact_match.2.1 bcInit adminSeed "cashier" adminSeed "admin"
     (by decide) (by decide),
   authorization_exact_match.2.2 bcInit "S1" "2024-01-01" "h1" adminSeed 5 (by decide)⟩

/-- Claim C5: for every gated operation, a well-formed address with no
role at all is rejected by `authMiddleware` with the no-valid-role error
(the code's `Unauthenticated` failure mode), a well-formed address whose
role differs from the required one is rejected by `requireRole` with the
role-required error (the `Forbidden` failure mode), and for each of the
three roles the routes actually require these two rejections are
distinct. -/
theorem unauthenticated_vs_forbidden :
    (∀ (st : BCState) (w required : String),
       startsWithLsk w = true → w.length = 41 →
       alookup st.mockUsers w = none →
       gate st (some w) required = .reject 403 "Unauthorized: No valid role assigned")
    ∧ (∀ (st : BCState) (w required r : String),
       startsWithLsk w = true → w.length = 41 →
       alookup st.mockUsers w = some r →
       (r = "admin" ∨ r = "auditor" ∨ r = "cashier") → r ≠ required →
       gate st (some w) required
         = .reject 403 ("Unauthorized: " ++ required ++ " role required"))
    ∧ (∀ required : String,
       (required = "admin" ∨ required = "auditor" ∨ required = "cashier") →
       ("Unauthorized: No valid role assigned" : String)
         ≠ "Unauthorized: " ++ required ++ " role required") := by
  refine ⟨?_, ?_, ?_⟩
  · intro st w required hsw hlen hnone
    simp [gate, authMiddleware, BCState.hasRole, hsw, hlen, hnone]
  · intro st w required r hsw hlen hsome hmem hne
    rcases hmem with rfl | rfl | rfl <;>
      simp [gate, authMiddleware, BCState.hasRole, hsw, hlen, hsome, hne]
  · rintro required (rfl | rfl | rfl) <;> decide

/-- Witness for claim C5: in the seeded state, an unknown well-formed
address hitting an admin-gated route gets the no-valid-role rejection,
while the seeded cashier gets the admin-role-required rejection. -/
theorem unauthenticated_vs_forbidden_witness :
    gate bcInit (some "lsk99999999999999999999999999999999999999") "admin"
        = .reject 403 "Unauthorized: No valid role assigned"
    ∧ gate bcInit (some cashierSeed) "admin"
        = .reject 403 ("Unauthorized: " ++ "admin" ++ " role required")
    ∧ ("Unauthorized: No valid role assigned" : String)
        ≠ "Unauthorized: " ++ "admin" ++ " role required" :=
  ⟨unauthenticated_vs_forbidden.1 bcInit "lsk99999999999999999999999999999999999999" "admin"
     (by decide) (by decide) (by decide),
   unauthenticated_vs_forbidden.2.1 bcInit cashierSeed "admin" "cashier"
     (by decide) (by decide) (by decide) (Or.inr (Or.inr rfl)) (by decide),
   unauthenticated_vs_forbidden.2.2 "admin" (Or.inl rfl)⟩

theorem verifyRoute_found (ss : ServerState) (w a r : String) (f : UploadedFile)
    (s d : String) (now : Nat) (rec : SalesRecord)
    (hgate : gate ss.bc (some w) "auditor" = .proceed a r)
    (hs : s ≠ "") (hd : d ≠ "")
    (hrec : alookup ss.bc.mockSalesRecords (s ++ ":" ++ d) = some rec) :
    verifyRoute ss (some w) (some f) s d now =
      (⟨200, true,
         if sha256Hex f.bytes == rec.hash then "File verification successful"
         else "File verification failed"⟩,
       ⟨ss.bc, ss.adminLogs,
        ss.auditLogs ++ [⟨a, s, d, sha256Hex f.bytes, rec.hash,
          sha256Hex f.bytes == rec.hash, f.originalname, f.bytes.length, now, rec⟩]⟩) := by
  simp [verifyRoute, hgate, BCState.getSalesHash, hrec, hs, hd, bcMsg]

/-- Claim C6: a verification call against a key with no prior successful
submit fails with the 404 record-not-found response and leaves the whole
server state unchanged: no sales record is created and no audit event is
appended. -/
theorem verify_missing_record :
    ∀ (ss : ServerState) (w a r : String) (f : UploadedFile) (s d : String) (now : Nat),
      gate ss.bc (some w) "auditor" = .proceed a r →
      s ≠ "" → d ≠ "" →
      alookup ss.bc.mockSalesRecords (s ++ ":" ++ d) = none →
      verifyRoute ss (some w) (some f) s d now
        = (⟨404, false, "No sales record found for the specified store and date"⟩, ss) := by
  intro ss w a r f s d now hgate hs hd hrec
  simp [verifyRoute, hgate, BCState.getSalesHash, hrec, hs, hd, bcMsg]

/-- Witness for claim C6: in the seeded state with an empty ledger, the
seeded auditor's verification of a fresh key is a 404 and the state is
untouched. -/
theorem verify_missing_record_witness :
    verifyRoute serverInit (some auditorSeed) (some fileB1) "S1" "2024-01-01" 7
      = (⟨404, false, "No sales record found for the specified store and date"⟩, serverInit) :=
  verify_missing_record serverInit auditorSeed auditorSeed "auditor" fileB1 "S1" "2024-01-01" 7
    (by decide) (by decide) (by decide) (by decide)

/-- Claim C7: a verification call against an existing key succeeds,
appends exactly one audit event whose `hashMatch` is the exact equality
of the uploaded digest with the stored digest (a mismatch is still a
successful, recorded outcome), leaves the blockchain state — and with it
the stored sales record — unchanged, and a repeated call appends a
further event. -/
theorem verify_existing_record_appends_event :
    ∀ (ss : ServerState) (w a r : String) (f : UploadedFile) (s d : String) (now : Nat)
      (rec : SalesRecord),
      gate ss.bc (some w) "auditor" = .proceed a r →
      s ≠ "" → d ≠ "" →
      alookup ss.bc.mockSalesRecords (s ++ ":" ++ d) = some rec →
      (verifyRoute ss (some w) (some f) s d now).1.success = true
      ∧ (verifyRoute ss (some w) (some f) s d now).2.bc = ss.bc
      ∧ (verifyRoute ss (some w) (some f) s d now).2.auditLogs
          = ss.auditLogs ++ [⟨a, s, d, sha256Hex f.bytes, rec.hash,
              sha256Hex f.bytes == rec.hash, f.originalname, f.bytes.length, now, rec⟩]
      ∧ (∀ (f₂ : UploadedFile) (now₂ : Nat),
          (verifyRoute (verifyRoute ss (some w) (some f) s d now).2
              (some w) (some f₂) s d now₂).2.auditLogs
            = ss.auditLogs
              ++ [⟨a, s, d, sha256Hex f.bytes, rec.hash, sha256Hex f.bytes == rec.hash,
                    f.originalname, f.bytes.length, now, rec⟩,
                  ⟨a, s, d, sha256Hex f₂.bytes, rec.hash, sha256Hex f₂.bytes == rec.hash,
                    f₂.originalname, f₂.bytes.length, now₂, rec⟩]) := by
  intro ss w a r f s d now rec hgate hs hd hrec
  have h1 := verifyRoute_found ss w a r f s d now rec hgate hs hd hrec
  refine ⟨by rw [h1], by rw [h1], by rw [h1], ?_⟩
  intro f₂ now₂
  have h2 := verifyRoute_found (verifyRoute ss (some w) (some f) s d now).2 w a r f₂ s d now₂ rec
    (by rw [h1]; exact hgate) hs hd (by rw [h1]; exact hrec)
  rw [h2, h1]
  simp

/-- Witness for claim C7: after the seeded cashier's submission, the
seeded auditor's verification of the same bytes succeeds. -/
theorem verify_existing_record_appends_event_witness :
    (verifyRoute serverAfterSubmit (some auditorSeed) (some fileB1)
        "S1" "2024-01-01" 11).1.success = true :=
  (verify_existing_record_appends_event serverAfterSubmit auditorSeed auditorSeed "auditor"
    fileB1 "S1" "2024-01-01" 11 ⟨"S1", "2024-01-01", sha256Hex fileB1.bytes, 10, cashierSeed⟩
    (by decide) (by decide) (by decide) (by decide)).1

theorem addUserRoute_logs (ss : ServerState) (hdr : Option String)
    (target role : String) (now : Nat) :
    ((addUserRoute ss hdr target role now).1.success = true ∧
      ∃ e : AdminLogEntry, (addUserRoute ss hdr target role now).2.adminLogs
        = ss.adminLogs ++ [e] ∧ e.action = "add_user")
    ∨ ((addUserRoute ss hdr target role now).1.success = false ∧
       (addUserRoute ss hdr target role now).2.adminLogs = ss.adminLogs) := by
  rcases hg : gate ss.bc hdr "admin" with ⟨stt, m⟩ | ⟨a, r⟩
  · right; simp [addUserRoute, hg]
  · by_cases h1 : target = "" ∨ role = ""
    · right; simp [addUserRoute, hg, h1]
    · push_neg at h1
      by_cases h2 : (["admin", "auditor", "cashier"].contains role) = true
      · have h2' : role = "admin" ∨ role = "auditor" ∨ role = "cashier" := by
          simpa using h2
        by_cases h3 : startsWithLsk target = true ∧ target.length = 41
        · by_cases h4 : (ss.bc.addUser target role a).1.success = true
          · left
            constructor
            · rcases h2' with rfl | rfl | rfl <;> simp [addUserRoute, hg, h1.1, h3, h4]
            · refine ⟨⟨"add_user", a, target, some role, now⟩, ?_, rfl⟩
              rcases h2' with rfl | rfl | rfl <;> simp [addUserRoute, hg, h1.1, h3, h4]
          · right
            have h4' : (ss.bc.addUser target role a).1.success = false := by
              simpa using h4
            rcases h2' with rfl | rfl | rfl <;> simp [addUserRoute, hg, h1.1, h3, h4']
        · right
          rcases h2' with rfl | rfl | rfl <;> simp [addUserRoute, hg, h1.1, h3]
      · right
        have h2' : ¬ (role = "admin" ∨ role = "auditor" ∨ role = "cashier") := by
          simpa using h2
        push_neg at h2'
        simp [addUserRoute, hg, h1.1, h1.2, h2'.1, h2'.2.1, h2'.2.2]

theorem removeUserRoute_logs (ss : ServerState) (hdr : Option String)
    (target : String) (now : Nat) :
    ((removeUserRoute ss hdr target now).1.success = true ∧
      ∃ e : AdminLogEntry, (removeUserRoute ss hdr target now).2.adminLogs
        = ss.adminLogs ++ [e] ∧ e.action = "remove_user")
    ∨ ((removeUserRoute ss hdr target now).1.success = false ∧
       (removeUserRoute ss hdr target now).2.adminLogs = ss.adminLogs) := by
  rcases hg : gate ss.bc hdr "admin" with ⟨stt, m⟩ | ⟨a, r⟩
  · right; simp [removeUserRoute, hg]
  · by_cases h1 : target = ""
    · right; simp [removeUserRoute, hg, h1]
    · by_cases h4 : (ss.bc.removeUser target a).1.success = true
      · left
        exact ⟨by simp [removeUserRoute, hg, h1, h4],
          ⟨"remove_user", a, target, none, now⟩,
          by simp [removeUserRoute, hg, h1, h4], rfl⟩
      · right
        have h4' : (ss.bc.removeUser target a).1.success = false := by
          simpa using h4
        constructor
        · simp [removeUserRoute, hg, h1, h4']
        · simp [removeUserRoute, hg, h1, h4']

/-- Claim C8: for both role-management routes, a successful call appends
exactly one admin-action event (`add_user` / `remove_user`) and a failed
call appends none; in particular a call rejected by the authorization
chain returns the rejection unchanged and leaves the whole server state —
logs included — untouched. -/
theorem admin_action_logged_iff_success :
    (∀ (ss : ServerState) (hdr : Option String) (target role : String) (now : Nat),
       ((addUserRoute ss hdr target role now).1.success = true ∧
         ∃ e : AdminLogEntry, (addUserRoute ss hdr target role now).2.adminLogs
           = ss.adminLogs ++ [e] ∧ e.action = "add_user")
       ∨ ((addUserRoute ss hdr target role now).1.success = false ∧
          (addUserRoute ss hdr target role now).2.adminLogs = ss.adminLogs))
    ∧ (∀ (ss : ServerState) (hdr : Option String) (target : String) (now : Nat),
       ((removeUserRoute ss hdr target now).1.success = true ∧
         ∃ e : AdminLogEntry, (removeUserRoute ss hdr target now).2.adminLogs
           = ss.adminLogs ++ [e] ∧ e.action = "remove_user")
       ∨ ((removeUserRoute ss hdr target now).1.success = false ∧
          (removeUserRoute ss hdr target now).2.adminLogs = ss.adminLogs))
    ∧ (∀ (ss : ServerState) (hdr : Option String) (target role : String) (now : Nat)
         (stt : Nat) (m : String),
       gate ss.bc hdr "admin" = .reject stt m →
       addUserRoute ss hdr target role now = (⟨stt, false, m⟩, ss)
       ∧ removeUserRoute ss hdr target now = (⟨stt, false, m⟩, ss)) := by
  refine ⟨addUserRoute_logs, removeUserRoute_logs, ?_⟩
  intro ss hdr target role now stt m hg
  exact ⟨by simp [addUserRoute, hg], by simp [removeUserRoute, hg]⟩

/-- Witness for claim C8: a grant attempted by the seeded cashier is
rejected by the guard with no admin-action logged and no state change. -/
theorem admin_action_logged_iff_success_witness :
    addUserRoute serverInit (some cashierSeed) auditorSeed "cashier" 9
        = (⟨403, false, "Unauthorized: admin role required"⟩, serverInit)
    ∧ removeUserRoute serverInit (some cashierSeed) auditorSeed 9
        = (⟨403, false, "Unauthorized: admin role required"⟩, serverInit) :=
  admin_action_logged_iff_success.2.2 serverInit (some cashierSeed) auditorSeed "cashier" 9
    403 "Unauthorized: admin role required" (by decide)

theorem wordHex_length (w : Nat) : (wordHex w).length = 8 := rfl

theorem flatMap_wordHex_length (l : List Nat) : (l.flatMap wordHex).length = 8 * l.length := by
  induction l with
  | nil => rfl
  | cons x xs ih =>
    simp only [List.flatMap_cons, List.length_append, wordHex_length, ih, List.length_cons]
    ring

theorem sha256Hex_length (b : List Nat) : (sha256Hex b).length = 64 := by
  show ((sha256Words b).flatMap wordHex).length = 64
  rw [flatMap_wordHex_length, show (sha256Words b).length = 8 from rfl]

theorem BCState.submitSalesHash_success_lookup (st : BCState) (s d hsh a : String)
    (now : Nat) (hsucc : (st.submitSalesHash s d hsh a now).1.success = true) :
    alookup (st.submitSalesHash s d hsh a now).2.mockSalesRecords (s ++ ":" ++ d)
      = some ⟨s, d, hsh, now, a⟩ := by
  by_cases hc : alookup st.mockUsers a = some "cashier"
  · by_cases hdup : acontains st.mockSalesRecords (s ++ ":" ++ d) = true
    · simp [BCState.submitSalesHash, hc, hdup, bcMsg] at hsucc
    · simp [BCState.submitSalesHash, hc, hdup, alookup_ainsert_self]
  · simp [BCState.submitSalesHash, hc, bcMsg] at hsucc

/-- Claim C9: the digest is a deterministic function of the input bytes
with a fixed 64-character hex output; the comparison performed by the
verify path is exact string equality (the boolean comparison holds
exactly when the strings are equal, with no normalization, case folding
or truncation); the submit path stores `sha256Hex` of the uploaded bytes
and the verify path recomputes `sha256Hex` of the uploaded bytes, so
verifying the very bytes whose digest is on file always records
`hashMatch = true`. -/
theorem digest_deterministic_exact_equality :
    (∀ b₁ b₂ : List Nat, b₁ = b₂ → sha256Hex b₁ = sha256Hex b₂)
    ∧ (∀ b : List Nat, (sha256Hex b).length = 64)
    ∧ (∀ (b : List Nat) (e : String), (sha256Hex b == e) = true ↔ sha256Hex b = e)
    ∧ (∀ (ss : ServerState) (w a r : String) (f : UploadedFile) (s d : String) (now : Nat),
        gate ss.bc (some w) "cashier" = .proceed a r →
        (submitSalesRoute ss (some w) (some f) s d now).1.success = true →
        alookup (submitSalesRoute ss (some w) (some f) s d now).2.bc.mockSalesRecords
            (s ++ ":" ++ d) = some ⟨s, d, sha256Hex f.bytes, now, a⟩)
    ∧ (∀ (ss : ServerState) (w a r : String) (f : UploadedFile) (s d : String) (now : Nat)
         (rec : SalesRecord),
        gate ss.bc (some w) "auditor" = .proceed a r →
        s ≠ "" → d ≠ "" →
        alookup ss.bc.mockSalesRecords (s ++ ":" ++ d) = some rec →
        rec.hash = sha256Hex f.bytes →
        ∃ e : AuditLogEntry,
          (verifyRoute ss (some w) (some f) s d now).2.auditLogs = ss.auditLogs ++ [e]
          ∧ e.hashMatch = true ∧ e.uploadedHash = sha256Hex f.bytes
          ∧ e.storedHash = rec.hash) := by
  refine ⟨?_, sha256Hex_length, ?_, ?_, ?_⟩
  · intro b₁ b₂ hb
    exact congrArg sha256Hex hb
  · intro b e
    exact beq_iff_eq
  · intro ss w a r f s d now hg hsucc
    by_cases hsd : s = "" ∨ d = ""
    · simp [submitSalesRoute, hg, hsd] at hsucc
    · by_cases hbc : (ss.bc.submitSalesHash s d (sha256Hex f.bytes) a now).1.success = true
      · have hlk := BCState.submitSalesHash_success_lookup ss.bc s d (sha256Hex f.bytes) a now hbc
        simpa [submitSalesRoute, hg, hsd, hbc] using hlk
      · simp [submitSalesRoute, hg, hsd, hbc] at hsucc
  · intro ss w a r f s d now rec hg hs hd hrec hhash
    refine ⟨⟨a, s, d, sha256Hex f.bytes, rec.hash, sha256Hex f.bytes == rec.hash,
      f.originalname, f.bytes.length, now, rec⟩, ?_, ?_, rfl, rfl⟩
    · rw [verifyRoute_found ss w a r f s d now rec hg hs hd hrec]
    · show (sha256Hex f.bytes == rec.hash) = true
      rw [hhash]
      exact beq_self_eq_true (sha256Hex f.bytes)

/-- Witness for claim C9: the digest of the sample file has 64 hex
characters; submitting it stores exactly that digest; and re-verifying
the same bytes records a matching audit event. -/
theorem digest_deterministic_exact_equality_witness :
    (sha256Hex fileB1.bytes).length = 64
    ∧ alookup serverAfterSubmit.bc.mockSalesRecords ("S1" ++ ":" ++ "2024-01-01")
        = some ⟨"S1", "2024-01-01", sha256Hex fileB1.bytes, 10, cashierSeed⟩
    ∧ ∃ e : AuditLogEntry,
        (verifyRoute serverAfterSubmit (some auditorSeed) (some fileB1)
            "S1" "2024-01-01" 12).2.auditLogs = serverAfterSubmit.auditLogs ++ [e]
        ∧ e.hashMatch = true ∧ e.uploadedHash = sha256Hex fileB1.bytes
        ∧ e.storedHash = (⟨"S1", "2024-01-01", sha256Hex fileB1.bytes, 10,
            cashierSeed⟩ : SalesRecord).hash :=
  ⟨digest_deterministic_exact_equality.2.1 fileB1.bytes,
   digest_deterministic_exact_equality.2.2.2.1 serverInit cashierSeed cashierSeed "cashier"
     fileB1 "S1" "2024-01-01" 10 (by decide) (by decide),
   digest_deterministic_exact_equality.2.2.2.2 serverAfterSubmit auditorSeed auditorSeed
     "auditor" fileB1 "S1" "2024-01-01" 12
     ⟨"S1", "2024-01-01", sha256Hex fileB1.bytes, 10, cashierSeed⟩
     (by decide) (by decide) (by decide) (by decide) rfl⟩
